import Mathlib

/-!
  Verification of the keld_bot joke-bot workflow (src/bot.py, src/utils.py).

  The program is a LangGraph state machine: a menu node routes to a
  writer-critic refinement loop, a rating node, settings nodes and an exit
  node.  Each node returns a partial state update; the engine merges it
  into the session state, using the reducer `reduce_jokes` for the joke
  history field and plain replacement for every other field.

  The embedding below mirrors src/bot.py definition by definition.
  External effects (the OPENAI_API_KEY lookup, the two LLM calls, the
  pyjokes offline source, and the validated user inputs) are passed in as
  explicit oracle values: an LLM call is an `Except String String`
  (error message raised, or response content), the offline source is a
  function of (language, category), and each stdin read is a string drawn
  from a per-node input stream.  The prompt-template store (utils.py) only
  shapes the text sent to the LLM, which the oracle already abstracts, so
  it is not modelled further; templates are assumed to load.
-/

namespace KeldBot

/-- The Joke pydantic model of bot.py: text, category, optional rating. -/
structure Joke where
  text : String
  category : String
  rating : Option Int := none
deriving Repr, DecidableEq

/-- bot.py reduce_jokes: scan the incoming batch for the sentinel text
RESET_HISTORY; if any entry carries it, the merged history is empty,
otherwise the batch is appended to the existing history. -/
def reduce_jokes (left right : List Joke) : List Joke :=
  if right.any (fun j => j.text == "RESET_HISTORY") then [] else left ++ right

/-- The jokes_choice Literal of JokeState: n, c, l, r, q. -/
inductive JokesChoice where
  | n | c | l | r | q
deriving Repr, DecidableEq

/-- The approval_status Literal of JokeState. -/
inductive ApprovalStatus where
  | APPROVE | REJECT | PENDING
deriving Repr, DecidableEq

/-- The JokeState pydantic model of bot.py with its field defaults. -/
structure JokeState where
  jokes : List Joke := []
  jokes_choice : JokesChoice := .n
  category : String := "neutral"
  language : String := "en"
  quit : Bool := false
  current_joke : Option String := none
  critique : Option String := none
  approval_status : ApprovalStatus := .PENDING
  retry_count : Nat := 0
deriving Repr, DecidableEq

/-- A partial state update as returned by a node: `some v` for a field the
node wrote, `none` for a field it left out of the returned dict. -/
structure PartialUpdate where
  jokes : Option (List Joke) := none
  jokes_choice : Option JokesChoice := none
  category : Option String := none
  language : Option String := none
  quit : Option Bool := none
  current_joke : Option (Option String) := none
  critique : Option (Option String) := none
  approval_status : Option ApprovalStatus := none
  retry_count : Option Nat := none
deriving Repr, DecidableEq

/-- The LangGraph merge rule: the jokes field goes through its registered
reducer `reduce_jokes`; every other field is replaced outright when present
in the update and left unchanged when absent. -/
def applyUpdate (s : JokeState) (u : PartialUpdate) : JokeState where
  jokes := match u.jokes with
    | some batch => reduce_jokes s.jokes batch
    | none => s.jokes
  jokes_choice := u.jokes_choice.getD s.jokes_choice
  category := u.category.getD s.category
  language := u.language.getD s.language
  quit := u.quit.getD s.quit
  current_joke := u.current_joke.getD s.current_joke
  critique := u.critique.getD s.critique
  approval_status := u.approval_status.getD s.approval_status
  retry_count := u.retry_count.getD s.retry_count

/-- Python truthiness of an os.getenv result: None and the empty string
are falsy, any other string is truthy. -/
def truthy : Option String → Bool
  | none => false
  | some s => s != ""

/-- Python default whitespace as stripped by str.strip on the ASCII range:
space, tab, newline, carriage return, vertical tab and form feed. -/
def pyIsSpace (c : Char) : Bool :=
  c == ' ' || c == '\t' || c == '\n' || c == '\r' ||
  c == Char.ofNat 11 || c == Char.ofNat 12

/-- Python str.strip with no argument: drop whitespace from both ends.
Defined over the character list so that the kernel can evaluate it. -/
def pyStrip (s : String) : String :=
  ⟨((s.data.dropWhile pyIsSpace).reverse.dropWhile pyIsSpace).reverse⟩

/-- Python str.startswith for a plain string prefix. -/
def pyStartsWith (s pre : String) : Bool :=
  pre.data.isPrefixOf s.data

/-- Worker for pyReplace: scan left to right, replacing each
non-overlapping occurrence of old and resuming after the replacement.
The fuel argument makes the recursion structural; one unit of fuel is
spent per scanned position, and every call site passes the input length,
which suffices because old is never empty at a call site. -/
def pyReplaceAux (old new : List Char) : Nat → List Char → List Char
  | 0, l => l
  | _ + 1, [] => []
  | fuel + 1, c :: rest =>
      if old.isPrefixOf (c :: rest) then
        new ++ pyReplaceAux old new fuel ((c :: rest).drop old.length)
      else
        c :: pyReplaceAux old new fuel rest

/-- Python str.replace with a non-empty pattern: replace every
non-overlapping occurrence of old by new, scanning left to right. -/
def pyReplace (s old new : String) : String :=
  ⟨pyReplaceAux old.data new.data s.data.length s.data⟩

/-- Decimal digit run: at least one digit, most significant first. -/
def pyNat? (cs : List Char) : Option Nat :=
  if cs = [] then none
  else if cs.all (fun c => c.isDigit) then
    some (cs.foldl (fun acc c => 10 * acc + (c.toNat - 48)) 0)
  else none

/-- Python int() applied to an already stripped string: an optional sign
followed by one or more decimal digits; anything else raises ValueError,
modelled as none. -/
def pyInt? (s : String) : Option Int :=
  match s.data with
  | '+' :: rest => (pyNat? rest).map Int.ofNat
  | '-' :: rest => (pyNat? rest).map (fun n => -(n : Int))
  | cs => (pyNat? cs).map Int.ofNat

/-- The rating parse of rate_joke: strip the input; blank means no rating;
a non-integer raises ValueError which is caught as no rating; an integer
outside 1..5 is discarded as no rating. -/
def parse_rating (raw : String) : Option Int :=
  let s := pyStrip raw
  if s = "" then none
  else match pyInt? s with
    | none => none
    | some r => if 1 ≤ r ∧ r ≤ 5 then some r else none

/-- bot.py show_menu: the re-prompt loop only ever returns one of the five
validated choices, written to jokes_choice.  The validated choice is the
oracle input. -/
def show_menu (choice : JokesChoice) (_ : JokeState) : PartialUpdate :=
  { jokes_choice := some choice }

/-- bot.py writer_node.  api_key is the OPENAI_API_KEY lookup, llm the
outcome of the ChatOpenAI invocation, get_joke the pyjokes source as a
function of (language, category).  Without a truthy key the node falls
back to get_joke en neutral, force-approves and zeroes retry_count; on an
LLM success it stores the stripped content and increments retry_count; on
an LLM error it falls back exactly as in the no-key case. -/
def writer_node (api_key : Option String) (llm : Except String String)
    (get_joke : String → String → String) (state : JokeState) : PartialUpdate :=
  if truthy api_key = false then
    { current_joke := some (some (get_joke "en" "neutral")),
      approval_status := some .APPROVE,
      retry_count := some 0 }
  else
    match llm with
    | .ok content =>
        { current_joke := some (some (pyStrip content)),
          retry_count := some (state.retry_count + 1) }
    | .error _ =>
        { current_joke := some (some (get_joke "en" "neutral")),
          approval_status := some .APPROVE,
          retry_count := some 0 }

/-- bot.py critic_node.  Without a truthy key it approves without calling
the LLM; on an LLM success it strips the content, approves and clears the
critique when the result starts with APPROVE, otherwise rejects and stores
the result with every REJECT occurrence removed and whitespace stripped;
on an LLM error it fails open to APPROVE. -/
def critic_node (api_key : Option String) (llm : Except String String)
    (_ : JokeState) : PartialUpdate :=
  if truthy api_key = false then
    { approval_status := some .APPROVE }
  else
    match llm with
    | .ok content =>
        let result := pyStrip content
        if pyStartsWith result "APPROVE" then
          { approval_status := some .APPROVE, critique := some none }
        else
          { approval_status := some .REJECT,
            critique := some (some (pyStrip (pyReplace result "REJECT" ""))) }
    | .error _ => { approval_status := some .APPROVE }

/-- bot.py deliver_joke: prints current_joke, returns the empty update. -/
def deliver_joke (_ : JokeState) : PartialUpdate := {}

/-- bot.py rate_joke: parse the rating input, build a Joke from the
current draft and category, and return the update that feeds that joke as
a one-element batch into the history reducer while clearing the loop
fields.  Constructing Joke with text=None fails pydantic validation, so a
missing current_joke is a raised error, modelled as `none`. -/
def rate_joke (raw : String) (state : JokeState) : Option PartialUpdate :=
  match state.current_joke with
  | none => none
  | some t =>
      some { jokes := some [{ text := t, category := state.category,
                              rating := parse_rating raw }],
             current_joke := some none,
             critique := some none,
             approval_status := some .PENDING,
             retry_count := some 0 }

/-- bot.py update_category: a non-integer input or an out-of-range index
keeps everything unchanged; a valid index 0..2 selects from the fixed
category list and clears the refinement loop fields. -/
def update_category (raw : String) (_ : JokeState) : PartialUpdate :=
  match pyInt? (pyStrip raw) with
  | none => {}
  | some sel =>
      if 0 ≤ sel ∧ sel < 3 then
        { category := some (["neutral", "chuck", "all"].getD sel.toNat ""),
          current_joke := some none,
          critique := some none,
          approval_status := some .PENDING,
          retry_count := some 0 }
      else {}

/-- bot.py update_language: a non-integer input or an out-of-range index
keeps everything unchanged; a valid index 0..3 selects from the fixed
language list.  No other field appears in the returned update. -/
def update_language (raw : String) (_ : JokeState) : PartialUpdate :=
  match pyInt? (pyStrip raw) with
  | none => {}
  | some sel =>
      if 0 ≤ sel ∧ sel < 4 then
        { language := some (["en", "de", "es", "am"].getD sel.toNat "") }
      else {}

/-- bot.py reset_jokes: emit the sentinel batch into the history reducer
and clear the refinement loop fields. -/
def reset_jokes (_ : JokeState) : PartialUpdate :=
  { jokes := some [{ text := "RESET_HISTORY", category := "neutral" }],
    current_joke := some none,
    critique := some none,
    approval_status := some .PENDING,
    retry_count := some 0 }

/-- bot.py exit_bot: request termination. -/
def exit_bot (_ : JokeState) : PartialUpdate :=
  { quit := some true }

/-- The graph node names of build_joke_graph. -/
inductive NodeName where
  | show_menu | writer_node | critic_node | deliver_joke | rate_joke
  | update_category | update_language | reset_jokes | exit_bot
deriving Repr, DecidableEq

/-- bot.py route_choice: dispatch on jokes_choice. -/
def route_choice (state : JokeState) : NodeName :=
  match state.jokes_choice with
  | .n => .writer_node
  | .c => .update_category
  | .l => .update_language
  | .r => .reset_jokes
  | .q => .exit_bot

/-- bot.py route_critique: APPROVE delivers; otherwise a retry_count of at
least 5 delivers best effort; otherwise back to the writer. -/
def route_critique (state : JokeState) : NodeName :=
  if state.approval_status = .APPROVE then .deliver_joke
  else if state.retry_count ≥ 5 then .deliver_joke
  else .writer_node

/-- The external world of one session: the credential lookup, the two LLM
response streams indexed by call number, the validated menu choices and
the raw stdin lines of the three prompting nodes indexed by read number,
and the pyjokes offline source. -/
structure Env where
  api_key : Option String
  writer_responses : Nat → Except String String
  critic_responses : Nat → Except String String
  menu_inputs : Nat → JokesChoice
  rating_inputs : Nat → String
  category_inputs : Nat → String
  language_inputs : Nat → String
  get_joke : String → String → String

/-- One point of the execution trace: the session state, the node about to
run, cursors into every input stream, invocation counters for the writer
and critic nodes and for their LLM calls, and the texts printed by
deliver_joke so far. -/
structure ExecState where
  state : JokeState
  node : NodeName
  writer_node_calls : Nat := 0
  critic_node_calls : Nat := 0
  writer_llm_calls : Nat := 0
  critic_llm_calls : Nat := 0
  menu_reads : Nat := 0
  rating_reads : Nat := 0
  category_reads : Nat := 0
  language_reads : Nat := 0
  delivered : List String := []
deriving Repr, DecidableEq

/-- The outcome of one engine step: continue at the next node, reach the
END marker, or propagate a raised error. -/
inductive StepResult where
  | next (es : ExecState)
  | halted (es : ExecState)
  | errored
deriving Repr, DecidableEq

/-- One step of the compiled graph of build_joke_graph: run the current
node with its oracle inputs, merge its update via `applyUpdate`, and
follow the registered edge (conditional after show_menu and critic_node,
unconditional elsewhere; exit_bot leads to END). -/
def step (env : Env) (es : ExecState) : StepResult :=
  match es.node with
  | .show_menu =>
      let s := applyUpdate es.state (show_menu (env.menu_inputs es.menu_reads) es.state)
      .next { es with
                state := s
                menu_reads := es.menu_reads + 1
                node := route_choice s }
  | .writer_node =>
      let s := applyUpdate es.state
        (writer_node env.api_key (env.writer_responses es.writer_llm_calls)
          env.get_joke es.state)
      .next { es with
                state := s
                writer_node_calls := es.writer_node_calls + 1
                writer_llm_calls :=
                  es.writer_llm_calls + (if truthy env.api_key then 1 else 0)
                node := .critic_node }
  | .critic_node =>
      let s := applyUpdate es.state
        (critic_node env.api_key (env.critic_responses es.critic_llm_calls) es.state)
      .next { es with
                state := s
                critic_node_calls := es.critic_node_calls + 1
                critic_llm_calls :=
                  es.critic_llm_calls + (if truthy env.api_key then 1 else 0)
                node := route_critique s }
  | .deliver_joke =>
      let s := applyUpdate es.state (deliver_joke es.state)
      .next { es with
                state := s
                delivered := es.delivered ++ [es.state.current_joke.getD ""]
                node := .rate_joke }
  | .rate_joke =>
      match rate_joke (env.rating_inputs es.rating_reads) es.state with
      | none => .errored
      | some u =>
          .next { es with
                    state := applyUpdate es.state u
                    rating_reads := es.rating_reads + 1
                    node := .show_menu }
  | .update_category =>
      let s := applyUpdate es.state
        (update_category (env.category_inputs es.category_reads) es.state)
      .next { es with
                state := s
                category_reads := es.category_reads + 1
                node := .show_menu }
  | .update_language =>
      let s := applyUpdate es.state
        (update_language (env.language_inputs es.language_reads) es.state)
      .next { es with
                state := s
                language_reads := es.language_reads + 1
                node := .show_menu }
  | .reset_jokes =>
      let s := applyUpdate es.state (reset_jokes es.state)
      .next { es with
                state := s
                node := .show_menu }
  | .exit_bot =>
      .halted { es with state := applyUpdate es.state (exit_bot es.state) }

/-- The outcome of a bounded run: reached END, raised, or exhausted the
step budget. -/
inductive RunResult where
  | halted (es : ExecState)
  | errored
  | outOfFuel (es : ExecState)
deriving Repr, DecidableEq

/-- Run the graph for at most the given number of steps (the engine has a
recursion_limit safety net; the claims hold well inside it). -/
def run (env : Env) : Nat → ExecState → RunResult
  | 0, es => .outOfFuel es
  | fuel + 1, es =>
      match step env es with
      | .next es2 => run env fuel es2
      | .halted es2 => .halted es2
      | .errored => .errored

/-- The initial trace point: the default JokeState at the entry node. -/
def initExec : ExecState := { state := {}, node := .show_menu }

/-- Did the run reach END normally. -/
def RunResult.isHalted : RunResult → Bool
  | .halted _ => true
  | _ => false

/-- Writer node invocation count of a normally halted run. -/
def RunResult.writerCalls : RunResult → Option Nat
  | .halted es => some es.writer_node_calls
  | _ => none

/-- Critic node invocation count of a normally halted run. -/
def RunResult.criticCalls : RunResult → Option Nat
  | .halted es => some es.critic_node_calls
  | _ => none

/-- Critic LLM call count of a normally halted run. -/
def RunResult.criticLlm : RunResult → Option Nat
  | .halted es => some es.critic_llm_calls
  | _ => none

/-- The texts printed by deliver_joke during a normally halted run. -/
def RunResult.deliveredTexts : RunResult → Option (List String)
  | .halted es => some es.delivered
  | _ => none

/-- A concrete environment for the always-reject scenario: credential
present, writer succeeds, critic always rejects, menu picks n then q. -/
def envC1 : Env :=
  { api_key := some "sk-test"
    writer_responses := fun _ => .ok " A joke "
    critic_responses := fun _ => .ok "REJECT not funny"
    menu_inputs := fun k => if k = 0 then .n else .q
    rating_inputs := fun _ => "5"
    category_inputs := fun _ => "0"
    language_inputs := fun _ => "0"
    get_joke := fun _ _ => "offline joke" }

/-- A concrete environment where every critique invocation raises. -/
def envC4 : Env :=
  { api_key := some "sk-test"
    writer_responses := fun _ => .ok "A joke"
    critic_responses := fun _ => .error "connection refused"
    menu_inputs := fun k => if k = 0 then .n else .q
    rating_inputs := fun _ => ""
    category_inputs := fun _ => "0"
    language_inputs := fun _ => "0"
    get_joke := fun _ _ => "offline joke" }

/-- A concrete environment with no credential: both LLM response streams
are unreachable and the offline source answers every fallback. -/
def offlineEnv : Env :=
  { api_key := none
    writer_responses := fun _ => .ok "unused"
    critic_responses := fun _ => .ok "unused"
    menu_inputs := fun k => if k = 0 then .n else .q
    rating_inputs := fun _ => ""
    category_inputs := fun _ => "0"
    language_inputs := fun _ => "0"
    get_joke := fun _ _ => "offline joke" }

/-- A session state with an in-flight draft and critique, as left behind
by a rejected writer attempt, used to examine the language-change step. -/
def langChangeState : JokeState :=
  { current_joke := some "draft in flight"
    critique := some "too dry"
    approval_status := .REJECT
    retry_count := 2 }

/-- A session state about to be rated whose draft text happens to equal
the reset sentinel, exercising the sentinel corner of the reducer. -/
def rateSentinelState : JokeState :=
  { jokes := [{ text := "old joke", category := "neutral" }]
    current_joke := some "RESET_HISTORY" }

/-- C2: for every existing history H and every incoming batch R holding a
reset-sentinel entry (a joke whose text is RESET_HISTORY), the reducer
applied to H and R yields the empty sequence, regardless of the prior
contents of H and of the other entries of R. -/
theorem C2_reset_clears_history (H R : List Joke) (j : Joke)
    (hj : j ∈ R) (ht : j.text = "RESET_HISTORY") :
    reduce_jokes H R = [] := by
  unfold reduce_jokes
  rw [if_pos]
  exact List.any_eq_true.mpr ⟨j, hj, by simp [ht]⟩

/-- Witness for C2 at a concrete non-empty history and mixed batch. -/
theorem C2_witness :
    reduce_jokes [{ text := "a", category := "neutral" }]
      [{ text := "b", category := "chuck" },
       { text := "RESET_HISTORY", category := "neutral" }] = [] :=
  C2_reset_clears_history _ _ { text := "RESET_HISTORY", category := "neutral" }
    (by simp) rfl

/-- C3: for every history H and non-sentinel joke j, the reducer applied
to H and the one-element batch with j yields H followed by j, preserving
the order of H.  Values are immutable in the embedding, so H itself is
untouched: the result merely has H as its prefix. -/
theorem C3_append_law (H : List Joke) (j : Joke)
    (ht : j.text ≠ "RESET_HISTORY") :
    reduce_jokes H [j] = H ++ [j] := by
  unfold reduce_jokes
  simp [ht]

/-- Witness for C3 at a concrete history and joke. -/
theorem C3_witness :
    reduce_jokes [{ text := "a", category := "neutral" }]
      [{ text := "b", category := "chuck", rating := some 3 }] =
      [{ text := "a", category := "neutral" },
       { text := "b", category := "chuck", rating := some 3 }] :=
  C3_append_law _ _ (by decide)

/-- C5: whenever the generation call raises (the credential being present,
so the call was actually made), the writer step returns the offline joke
as the draft, force-sets approval to APPROVE and resets retry_count to 0,
instead of propagating the error. -/
theorem C5_writer_error_fallback (key : Option String) (e : String)
    (gj : String → String → String) (s : JokeState)
    (hk : truthy key = true) :
    writer_node key (.error e) gj s =
      { current_joke := some (some (gj "en" "neutral"))
        approval_status := some .APPROVE
        retry_count := some 0 } := by
  simp [writer_node, hk]

/-- Witness for C5 at a concrete key, error and session state. -/
theorem C5_witness :
    writer_node (some "sk-test") (.error "timeout") (fun _ _ => "offline joke")
      { category := "chuck", language := "de", retry_count := 3 } =
      { current_joke := some (some "offline joke")
        approval_status := some .APPROVE
        retry_count := some 0 } :=
  C5_writer_error_fallback (some "sk-test") "timeout" (fun _ _ => "offline joke")
    { category := "chuck", language := "de", retry_count := 3 } rfl

/-- C10: whenever the writer falls back to the offline source, whether
because the credential is absent or because the generation call raised,
the fallback joke is requested as get_joke of language en and category
neutral, regardless of the category and language currently selected in
the session state. -/
theorem C10_fallback_fixed_selection (key : Option String)
    (llm : Except String String) (gj : String → String → String) (s : JokeState)
    (hfb : truthy key = false ∨ ∃ e, llm = .error e) :
    (writer_node key llm gj s).current_joke = some (some (gj "en" "neutral")) ∧
    (writer_node key llm gj s).approval_status = some .APPROVE ∧
    (writer_node key llm gj s).retry_count = some 0 := by
  rcases hfb with hk | ⟨e, he⟩
  · simp [writer_node, hk]
  · subst he
    by_cases hk : truthy key = false <;> simp [writer_node, hk]

/-- Witness for C10: with category chuck and language de selected, the
fallback still asks the offline source for en and neutral. -/
theorem C10_witness :
    (writer_node none (.ok "never used") (fun lang cat => lang ++ "/" ++ cat)
      { category := "chuck", language := "de" }).current_joke =
      some (some "en/neutral") :=
  (C10_fallback_fixed_selection none (.ok "never used")
    (fun lang cat => lang ++ "/" ++ cat)
    { category := "chuck", language := "de" } (Or.inl rfl)).1

/-- C8: for every critique response (the credential being present), a
stripped response starting with the token APPROVE sets approval to
APPROVE and clears the critique; any other response sets approval to
REJECT and stores the response with the REJECT token removed and
whitespace stripped as the critique. -/
theorem C8_critic_parse (key : Option String) (content : String) (s : JokeState)
    (hk : truthy key = true) :
    ((pyStartsWith (pyStrip content) "APPROVE") = true →
      critic_node key (.ok content) s =
        { approval_status := some .APPROVE, critique := some none }) ∧
    ((pyStartsWith (pyStrip content) "APPROVE") = false →
      critic_node key (.ok content) s =
        { approval_status := some .REJECT
          critique := some (some (pyStrip (pyReplace (pyStrip content)
            "REJECT" ""))) }) := by
  constructor <;> intro h <;> simp [critic_node, hk, h]

/-- Witness for C8: one approving and one rejecting concrete response. -/
theorem C8_witness :
    critic_node (some "sk-test") (.ok " APPROVE nice one") ({} : JokeState) =
      { approval_status := some .APPROVE, critique := some none } ∧
    critic_node (some "sk-test") (.ok "REJECT too dry") ({} : JokeState) =
      { approval_status := some .REJECT, critique := some (some "too dry") } := by
  constructor
  · exact (C8_critic_parse (some "sk-test") " APPROVE nice one" {} rfl).1
      (by decide)
  · have h := (C8_critic_parse (some "sk-test") "REJECT too dry" {} rfl).2
      (by decide)
    have e : pyStrip (pyReplace (pyStrip "REJECT too dry") "REJECT" "") =
        "too dry" := by decide
    rw [e] at h
    exact h

/-- C9 counterexample: the language-change step completes (language
becomes de) yet the in-flight draft and critique survive untouched, so
the claim that a language change clears draftJoke is false on the code. -/
theorem C9_counterexample :
    (applyUpdate langChangeState (update_language "1" langChangeState)).language =
      "de" ∧
    (applyUpdate langChangeState (update_language "1" langChangeState)).current_joke =
      some "draft in flight" ∧
    (applyUpdate langChangeState (update_language "1" langChangeState)).critique =
      some "too dry" := by
  refine ⟨?_, ?_, ?_⟩ <;> decide

/-- C9 as amended: the language-change step only ever writes the language
field; draftJoke, critique, history, approval status, retry count,
category and the quit flag are all left exactly as they were, for every
state and every raw selection input. -/
theorem C9_language_frame (s : JokeState) (raw : String) :
    (applyUpdate s (update_language raw s)).current_joke = s.current_joke ∧
    (applyUpdate s (update_language raw s)).critique = s.critique ∧
    (applyUpdate s (update_language raw s)).jokes = s.jokes ∧
    (applyUpdate s (update_language raw s)).approval_status = s.approval_status ∧
    (applyUpdate s (update_language raw s)).retry_count = s.retry_count ∧
    (applyUpdate s (update_language raw s)).category = s.category ∧
    (applyUpdate s (update_language raw s)).quit = s.quit := by
  unfold update_language
  rcases h : pyInt? (pyStrip raw) with _ | sel
  · simp [applyUpdate]
  · by_cases hr : 0 ≤ sel ∧ sel < 4 <;> simp [applyUpdate, hr]

/-- C7 counterexample: when the draft text equals the reset sentinel, the
rate update does not append one joke to the history; the merge through
the reducer empties the history instead, losing the prior entry. -/
theorem C7_counterexample :
    (rate_joke "" rateSentinelState).map
        (fun u => (applyUpdate rateSentinelState u).jokes) = some [] ∧
    rateSentinelState.jokes ≠ [] := by
  refine ⟨?_, ?_⟩ <;> decide

/-- C7 as amended: whenever the rate step runs on a draft that is not the
reset sentinel, the merged state is the old state with exactly one new
joke appended, carrying the draft text, the current category and the
parsed rating, while draftJoke and critique are cleared, approval is
PENDING and retry_count is 0; the rating parse returns no rating on
blank or non-numeric input, any rating it returns lies in 1..5, and an
entered integer in 1..5 is returned as the rating. -/
theorem C7_rate_step (s : JokeState) (raw t : String)
    (hc : s.current_joke = some t) (ht : t ≠ "RESET_HISTORY") :
    (rate_joke raw s).map (fun u => applyUpdate s u) =
      some { s with
               jokes := s.jokes ++ [{ text := t, category := s.category,
                                      rating := parse_rating raw }]
               current_joke := none
               critique := none
               approval_status := .PENDING
               retry_count := 0 } ∧
    (pyStrip raw = "" → parse_rating raw = none) ∧
    (pyInt? (pyStrip raw) = none → parse_rating raw = none) ∧
    (∀ r : Int, parse_rating raw = some r → 1 ≤ r ∧ r ≤ 5) ∧
    (∀ n : Int, pyInt? (pyStrip raw) = some n → 1 ≤ n → n ≤ 5 →
      parse_rating raw = some n) := by
  refine ⟨?_, ?_, ?_, ?_, ?_⟩
  · simp only [rate_joke, hc, Option.map_some]
    cases s with
    | mk jokes jc cat lang q cj cr ap rc =>
        simp [applyUpdate, reduce_jokes, ht]
  · intro hb
    simp [parse_rating, hb]
  · intro hn
    unfold parse_rating
    by_cases hb : pyStrip raw = "" <;> simp [hb, hn]
  · intro r hr
    unfold parse_rating at hr
    by_cases hb : pyStrip raw = ""
    · simp [hb] at hr
    · simp only [hb, if_false] at hr
      rcases h : pyInt? (pyStrip raw) with _ | n
      · rw [h] at hr; simp at hr
      · rw [h] at hr
        by_cases hrange : 1 ≤ n ∧ n ≤ 5
        · simp [hrange] at hr
          subst hr
          exact hrange
        · simp [hrange] at hr
  · intro n hn h1 h5
    unfold parse_rating
    have hb : pyStrip raw ≠ "" := by
      intro hb
      rw [hb] at hn
      rw [show pyInt? "" = none by decide] at hn
      exact Option.noConfusion hn
    simp [hb, hn, h1, h5]

/-- Witness for C7 at a concrete state, draft and rating input of 4. -/
theorem C7_witness :
    (rate_joke " 4 " { jokes := [{ text := "old joke", category := "neutral" }]
                       current_joke := some "fresh joke"
                       category := "chuck"
                       critique := some "meh"
                       approval_status := .APPROVE
                       retry_count := 3 }).map
        (fun u => applyUpdate { jokes := [{ text := "old joke", category := "neutral" }]
                                current_joke := some "fresh joke"
                                category := "chuck"
                                critique := some "meh"
                                approval_status := .APPROVE
                                retry_count := 3 } u) =
      some { jokes := [{ text := "old joke", category := "neutral" },
                       { text := "fresh joke", category := "chuck", rating := some 4 }]
             current_joke := none
             critique := none
             category := "chuck"
             approval_status := .PENDING
             retry_count := 0 } := by
  have h := (C7_rate_step
    { jokes := [{ text := "old joke", category := "neutral" }]
      current_joke := some "fresh joke"
      category := "chuck"
      critique := some "meh"
      approval_status := .APPROVE
      retry_count := 3 } " 4 " "fresh joke" rfl (by decide)).1
  have e : parse_rating " 4 " = some 4 := by decide
  rw [e] at h
  exact h

/-- C1: in every run with the credential present, all writer calls
succeeding and every critic response a rejection, with the menu choosing
one joke and then quit, the session halts normally (no exception), the
writer node is invoked exactly 5 times (maxRetries), the single joke
delivered is the stripped last writer output, and the writer count is
within maxRetries plus one. -/
theorem C1_always_reject_five_writes (env : Env) (w c : Nat → String)
    (hk : truthy env.api_key = true)
    (hw : ∀ k, env.writer_responses k = .ok (w k))
    (hc : ∀ k, env.critic_responses k = .ok (c k))
    (hrej : ∀ k, (pyStartsWith (pyStrip (c k)) "APPROVE") = false)
    (h0 : env.menu_inputs 0 = JokesChoice.n)
    (h1 : env.menu_inputs 1 = JokesChoice.q) :
    (run env 20 initExec).isHalted = true ∧
    (run env 20 initExec).writerCalls = some 5 ∧
    (run env 20 initExec).deliveredTexts = some [pyStrip (w 4)] ∧
    (∀ m, (run env 20 initExec).writerCalls = some m → m ≤ 5 + 1) := by
  have h5 : (run env 20 initExec).writerCalls = some 5 := by
    simp [run, step, initExec, applyUpdate, show_menu, writer_node, critic_node,
      deliver_joke, rate_joke, update_category, update_language, reset_jokes,
      exit_bot, route_choice, route_critique, reduce_jokes, hk, hw, hc, hrej,
      h0, h1, RunResult.writerCalls]
  refine ⟨?_, h5, ?_, ?_⟩
  · simp [run, step, initExec, applyUpdate, show_menu, writer_node, critic_node,
      deliver_joke, rate_joke, update_category, update_language, reset_jokes,
      exit_bot, route_choice, route_critique, reduce_jokes, hk, hw, hc, hrej,
      h0, h1, RunResult.isHalted]
  · simp [run, step, initExec, applyUpdate, show_menu, writer_node, critic_node,
      deliver_joke, rate_joke, update_category, update_language, reset_jokes,
      exit_bot, route_choice, route_critique, reduce_jokes, hk, hw, hc, hrej,
      h0, h1, RunResult.deliveredTexts]
  · intro m hm
    rw [h5] at hm
    have := Option.some.inj hm
    omega

/-- Witness for C1: the concrete always-rejecting environment halts with
five writer invocations and delivers the stripped writer output. -/
theorem C1_witness :
    (run envC1 20 initExec).isHalted = true ∧
    (run envC1 20 initExec).writerCalls = some 5 ∧
    (run envC1 20 initExec).deliveredTexts = some ["A joke"] := by
  have hrej : pyStartsWith (pyStrip "REJECT not funny") "APPROVE" = false := by
    decide
  have h := C1_always_reject_five_writes envC1 (fun _ => " A joke ")
    (fun _ => "REJECT not funny") rfl (fun _ => rfl) (fun _ => rfl)
    (fun _ => hrej) rfl rfl
  refine ⟨h.1, h.2.1, ?_⟩
  have e : pyStrip " A joke " = "A joke" := by decide
  rw [← e]
  exact h.2.2.1

/-- C4: the critic step maps every raised critique call to an APPROVE
update (fails open), and in a run where every critique invocation raises,
the cycle reaches delivery after a single writer and a single critic
invocation and the session still halts normally. -/
theorem C4_critic_fail_open (env : Env) (w0 : String) (e : Nat → String)
    (hk : truthy env.api_key = true)
    (hw : env.writer_responses 0 = .ok w0)
    (hc : ∀ k, env.critic_responses k = .error (e k))
    (h0 : env.menu_inputs 0 = JokesChoice.n)
    (h1 : env.menu_inputs 1 = JokesChoice.q) :
    (∀ (key : Option String) (msg : String) (s : JokeState),
        truthy key = true →
        critic_node key (.error msg) s = { approval_status := some .APPROVE }) ∧
    (run env 20 initExec).isHalted = true ∧
    (run env 20 initExec).writerCalls = some 1 ∧
    (run env 20 initExec).criticCalls = some 1 ∧
    (run env 20 initExec).deliveredTexts = some [pyStrip w0] := by
  refine ⟨?_, ?_, ?_, ?_, ?_⟩
  · intro key msg s hkey
    simp [critic_node, hkey]
  all_goals
    simp [run, step, initExec, applyUpdate, show_menu, writer_node, critic_node,
      deliver_joke, rate_joke, update_category, update_language, reset_jokes,
      exit_bot, route_choice, route_critique, reduce_jokes, hk, hw, hc,
      h0, h1, RunResult.isHalted, RunResult.writerCalls, RunResult.criticCalls,
      RunResult.deliveredTexts]

/-- Witness for C4: the concrete critic-raising environment delivers the
writer output after one pass and halts. -/
theorem C4_witness :
    (run envC4 20 initExec).isHalted = true ∧
    (run envC4 20 initExec).writerCalls = some 1 ∧
    (run envC4 20 initExec).deliveredTexts = some ["A joke"] := by
  have h := C4_critic_fail_open envC4 "A joke" (fun _ => "connection refused")
    rfl rfl (fun _ => rfl) rfl rfl
  refine ⟨h.2.1, h.2.2.1, ?_⟩
  have e : pyStrip "A joke" = "A joke" := by decide
  rw [← e]
  exact h.2.2.2.2

/-- C6 counterexample: with no credential at all, the critic node is
still invoked once in the pass (the graph edge from the writer to the
critic is unconditional), so the claim that the Critique step is never
invoked is false on the code; the run still halts normally. -/
theorem C6_counterexample :
    (run offlineEnv 20 initExec).criticCalls = some 1 ∧
    (run offlineEnv 20 initExec).isHalted = true := by
  refine ⟨?_, ?_⟩ <;> decide

/-- C6 as amended: with the credential absent from the first attempt, the
run performs exactly one pass in which the writer node runs once, the
critic node runs once but short-circuits without ever invoking the
critique capability, the offline joke is delivered, and the session
halts. -/
theorem C6_offline_single_pass (env : Env)
    (hk : truthy env.api_key = false)
    (h0 : env.menu_inputs 0 = JokesChoice.n)
    (h1 : env.menu_inputs 1 = JokesChoice.q) :
    (run env 20 initExec).isHalted = true ∧
    (run env 20 initExec).writerCalls = some 1 ∧
    (run env 20 initExec).criticCalls = some 1 ∧
    (run env 20 initExec).criticLlm = some 0 ∧
    (run env 20 initExec).deliveredTexts = some [env.get_joke "en" "neutral"] := by
  refine ⟨?_, ?_, ?_, ?_, ?_⟩ <;>
  simp [run, step, initExec, applyUpdate, show_menu, writer_node, critic_node,
    deliver_joke, rate_joke, update_category, update_language, reset_jokes,
    exit_bot, route_choice, route_critique, reduce_jokes, hk, h0, h1,
    RunResult.isHalted, RunResult.writerCalls, RunResult.criticCalls,
    RunResult.criticLlm, RunResult.deliveredTexts]

/-- Witness for the amended C6 at the concrete offline environment. -/
theorem C6_witness :
    (run offlineEnv 20 initExec).writerCalls = some 1 ∧
    (run offlineEnv 20 initExec).criticLlm = some 0 ∧
    (run offlineEnv 20 initExec).deliveredTexts = some ["offline joke"] := by
  have h := C6_offline_single_pass offlineEnv rfl rfl rfl
  exact ⟨h.2.1, h.2.2.2.1, h.2.2.2.2⟩

end KeldBot
